import Mathlib

/-!
Verification of the ingestion pipeline of the `iq` repository.

The development shallowly embeds the two entry points of the pipeline:

* the automatic drag-and-drop path, `src/src/hooks/useDragAndDrop.ts`
  (the `debounce` combinator and the `handleFileDrop` handler), and
* the manual batch controller, the `BatchFileProcessor` component of
  `src/src/components/CategorySidebar.tsx` (`addFilePath`, `removeFile`,
  `clearAll`, `resetStatus`, `processFile`, `processBatch`, `togglePause`).

External collaborators (the `DataService` backend and the toast UI) are
modelled by an `Env` record of oracles: each call either returns a value
(`Res.ok`) or raises (`Res.thrown msg`), matching the `async` calls that can
reject in the source.

React semantics matter for fidelity and are modelled explicitly: a running
`processBatch` invocation reads `files`, `currentIndex` and `isPaused` from
the closure captured at the render in which the callback was created (a
snapshot of the component state at invocation time), while `setFiles`,
`setCurrentIndex`, `setIsPaused`, `setProgress`, `setIsProcessing` write to
the live component state.  Interleaved user actions (for example a pause
click during the inter-item delay) mutate only the live state, never the
snapshot a running invocation reads.
-/

namespace IQ

/-- Result of a call into an external collaborator: the promise either
resolves with a value or rejects with an error message. -/
inductive Res (α : Type) where
  | ok (a : α)
  | thrown (msg : String)
deriving DecidableEq

/-- Mirror of the `getPathInfo` payload `{ file_name, is_directory }` used by
both entry points. -/
structure PathInfo where
  file_name : String
  is_directory : Bool
deriving DecidableEq

/-- Mirror of the icon payload `{ icon_data?: string }` returned by
`getFileIcon` / `getDirectoryIcon`. -/
structure IconResult where
  icon_data : Option String
deriving DecidableEq

/-- Mirror of the payload handed to `dataService.createShortcut`. -/
structure ShortcutInput where
  name : String
  file_path : String
  category_id : String
  icon_path : Option String
deriving DecidableEq

/-- The collaborator interface (`DataService`), one oracle per capability.
`getFileIcon` / `getDirectoryIcon` can resolve with `null` (modelled
`ok none`), with a payload whose `icon_data` may itself be absent, or
reject. -/
structure Env where
  getPathInfo : String → Res PathInfo
  validateFilePath : String → Res Bool
  validateDirectoryPath : String → Res Bool
  checkFileExists : String → Res Bool
  getFileIcon : String → Res (Option IconResult)
  getDirectoryIcon : String → Res (Option IconResult)
  createShortcut : ShortcutInput → Res Unit

/-! ### Shortcut-name derivation

Both entry points run
`if (!isDirectory && name.includes('.')) name = name.replace(/\.[^/.]+$/, '')`
(`useDragAndDrop.ts` lines 184-189, `CategorySidebar.tsx` lines 669-673).
The regex matches a literal dot followed by one or more characters that are
neither `/` nor `.`, anchored at the end of the string; such a match can only
start at the last dot, and only when the text after that dot is non-empty and
free of `/`.  Strings are handled through their character lists. -/

/-- Split a character list at its last `'.'`: `some (before, after)` when a
dot occurs, `none` otherwise. -/
def lastDotSplit : List Char → Option (List Char × List Char)
  | [] => none
  | c :: cs =>
    match lastDotSplit cs with
    | some (b, a) => some (c :: b, a)
    | none => if c = '.' then some ([], cs) else none

/-- JS `name.replace(/\.[^/.]+$/, '')`: drop the last dot and the text after
it when that text is non-empty and contains no `/`; otherwise the regex has
no match and the string is returned unchanged. -/
def stripLastExt (s : String) : String :=
  match lastDotSplit s.data with
  | some (b, a) => if a.isEmpty || a.contains '/' then s else String.mk b
  | none => s

/-- The shortcut-name rule shared by both entry points: directories keep the
display name; files containing a dot go through the regex replacement. -/
def deriveShortcutName (isDirectory : Bool) (name : String) : String :=
  if !isDirectory && name.data.contains '.' then stripLastExt name else name

/-- Modelled from the spec wording of step 4 of the Item Processor: for
files, remove "the last `.` and all text after it" from the display name;
directories and dot-free names are unmodified.  Used only to compare the
spec's formula with `deriveShortcutName`. -/
def specShortcutName (isDirectory : Bool) (name : String) : String :=
  if !isDirectory && name.data.contains '.' then
    match lastDotSplit name.data with
    | some (b, _) => String.mk b
    | none => name
  else name

/-! ### Trailing-edge debounce (`useDragAndDrop.ts` lines 7-28)

Each call clears a still-pending timer (armed `wait` units after the previous
call) and arms a fresh one; the wrapped function runs only when a timer
expires.  For calls at nondecreasing times, call `i`'s timer survives exactly
when no further call arrives strictly within `wait` of it, so the executions
of the wrapped function are computed by `debounceRuns`. -/

/-- Argument lists on which the debounced function body actually runs, given
the timestamped call sequence. -/
def debounceRuns {α : Type} (wait : Nat) : List (Nat × α) → List α
  | [] => []
  | [(_, a)] => [a]
  | (t₁, a₁) :: (t₂, a₂) :: rest =>
    if t₂ < t₁ + wait then debounceRuns wait ((t₂, a₂) :: rest)
    else a₁ :: debounceRuns wait ((t₂, a₂) :: rest)

/-! ### Automatic path: `handleFileDrop` (`useDragAndDrop.ts` lines 41-261)

The handler's component state is `isDragOver`, `isProcessing` (React state)
and `isProcessingRef.current` (the busy flag of the concurrency guard,
called `busy` here).  One execution of the debounced body is modelled as a
function from the entry state, the dropped path list and the collaborator
oracles to the final state plus an observation log. -/

/-- The hook's state: the two `useState` cells and the `isProcessingRef`
cell. -/
structure DropState where
  isDragOver : Bool
  isProcessing : Bool
  busy : Bool
deriving DecidableEq

/-- Observations of one `handleFileDrop` execution: per-path outcomes in
processing order, the payloads passed to `createShortcut`, the `onFileAdded`
callbacks, and the number of `toast.error` / `toast.success` calls (message
text is not load-bearing for any claim and is elided). -/
structure DropLog where
  successCount : Nat
  errorCount : Nat
  processed : List (String × Bool)
  attempts : List ShortcutInput
  fileAdded : List String
  errorToasts : Nat
  successToasts : Nat
deriving DecidableEq

/-- The empty observation log. -/
def emptyDropLog : DropLog := ⟨0, 0, [], [], [], 0, 0⟩

/-- Best-effort icon resolution, shared verbatim by the two entry points
(`useDragAndDrop.ts` lines 159-182 and `CategorySidebar.tsx` lines 658-667):
pick the directory- or file-icon collaborator, and on a rejected call — or,
in the manual path, the `TypeError` raised by reading `icon_data` off a
`null` result — fall back to no icon.  (The automatic path reaches the same
value through `if (iconResult && iconResult.icon_data)`.) -/
def resolveIcon (env : Env) (isDirectory : Bool) (path : String) : Option String :=
  match (if isDirectory then env.getDirectoryIcon path else env.getFileIcon path) with
  | .ok (some r) => r.icon_data
  | .ok none => none
  | .thrown _ => none

/-- Outcome of one iteration of the `for (const filePath of filePaths)` loop
body: whether `successCount` (rather than `errorCount`) was incremented, and
the payload passed to `createShortcut` when that call was reached. -/
structure AutoItemResult where
  ok : Bool
  attempt : Option ShortcutInput
deriving DecidableEq

/-- One iteration of the per-path loop of `handleFileDrop` (lines 98-236):
falsy path, `getPathInfo` rejection, failed validation, failed existence
check and `createShortcut` rejection each count an error (with one
`toast.error`); otherwise the shortcut is created and the path counts a
success. -/
def perItemAuto (env : Env) (categoryId : String) (filePath : String) : AutoItemResult :=
  if filePath = "" then ⟨false, none⟩
  else
    match env.getPathInfo filePath with
    | .thrown _ => ⟨false, none⟩
    | .ok info =>
      let isDirectory := info.is_directory
      match (if isDirectory then env.validateDirectoryPath filePath
             else env.validateFilePath filePath) with
      | .thrown _ => ⟨false, none⟩
      | .ok false => ⟨false, none⟩
      | .ok true =>
        match env.checkFileExists filePath with
        | .thrown _ => ⟨false, none⟩
        | .ok false => ⟨false, none⟩
        | .ok true =>
          let iconPath := resolveIcon env isDirectory filePath
          let shortcutName := deriveShortcutName isDirectory info.file_name
          let input : ShortcutInput := ⟨shortcutName, filePath, categoryId, iconPath⟩
          match env.createShortcut input with
          | .thrown _ => ⟨false, some input⟩
          | .ok _ => ⟨true, some input⟩

/-- The per-path loop over the dropped list, accumulating the two counters
and the observations; paths are visited strictly in list order (the final
counter values equal the source's left-to-right tallies). -/
def dropLoop (env : Env) (categoryId : String) : List String → DropLog
  | [] => emptyDropLog
  | p :: rest =>
    let r := perItemAuto env categoryId p
    let log := dropLoop env categoryId rest
    if r.ok then
      { successCount := log.successCount + 1
        errorCount := log.errorCount
        processed := (p, true) :: log.processed
        attempts := r.attempt.toList ++ log.attempts
        fileAdded := p :: log.fileAdded
        errorToasts := log.errorToasts
        successToasts := log.successToasts }
    else
      { successCount := log.successCount
        errorCount := log.errorCount + 1
        processed := (p, false) :: log.processed
        attempts := r.attempt.toList ++ log.attempts
        fileAdded := log.fileAdded
        errorToasts := log.errorToasts + 1
        successToasts := log.successToasts }

/-- One execution of the debounced body of `handleFileDrop` (lines 62-258).
While the busy flag is set the execution returns before touching any state
(lines 64-67).  Otherwise `isDragOver := false`, `isProcessing := true` and
the busy flag are set, the batch runs (an empty list only raises a
`toast.error`), the aggregate toasts are shown, and the `finally` block
(lines 255-258) restores `isProcessing` and the busy flag on every path
through the body. -/
def handleFileDrop (env : Env) (categoryId : String) (st : DropState)
    (paths : List String) : DropState × DropLog :=
  if st.busy then (st, emptyDropLog)
  else
    let done : DropState := { isDragOver := false, isProcessing := false, busy := false }
    if paths.length = 0 then
      (done, { emptyDropLog with errorToasts := 1 })
    else
      let log := dropLoop env categoryId paths
      (done,
        { log with
          successToasts := log.successToasts + (if 0 < log.successCount then 1 else 0)
          errorToasts := log.errorToasts + (if 0 < log.errorCount then 1 else 0) })

/-! ### Manual path: the `BatchFileProcessor` controller
(`CategorySidebar.tsx` lines 555-760)

Component state: `files`, `isProcessing`, `isPaused`, `progress`,
`currentIndex`.  `progress` is a percentage; it is modelled as an exact
rational where the source uses a JS number.  Item ids
(`Date.now().toString() + Math.random()`) are opaque and unique; they are
modelled as caller-supplied naturals. -/

/-- The per-item status vocabulary. -/
inductive Status where
  | pending
  | processing
  | success
  | error
deriving DecidableEq

/-- Mirror of the `FileItem` record of the manual controller.  `error` is
the `errorDetail` of the spec, `iconData` the resolved icon payload. -/
structure FileItem where
  id : Nat
  path : String
  name : String
  isDirectory : Bool
  status : Status
  error : Option String
  iconData : Option String
deriving DecidableEq

/-- The live component state of `BatchFileProcessor`. -/
structure Session where
  files : List FileItem
  isProcessing : Bool
  isPaused : Bool
  progress : ℚ
  currentIndex : Nat

/-- Observations of a manual-controller run: every value the live `files`
state takes (one entry per `setFiles` call, in order), the payloads passed
to `createShortcut`, the `onComplete` invocations, and toast counts. -/
structure BatchLog where
  filesTrace : List (List FileItem)
  attempts : List ShortcutInput
  completions : List (Nat × Nat)
  errorToasts : Nat
  successToasts : Nat
deriving DecidableEq

/-- The empty batch log. -/
def emptyBatchLog : BatchLog := ⟨[], [], [], 0, 0⟩

/-- Concatenation of two observation logs. -/
def appendLog (l₁ l₂ : BatchLog) : BatchLog :=
  ⟨l₁.filesTrace ++ l₂.filesTrace, l₁.attempts ++ l₂.attempts,
   l₁.completions ++ l₂.completions, l₁.errorToasts + l₂.errorToasts,
   l₁.successToasts + l₂.successToasts⟩

/-- A functional `setFiles` update targeting the item with the given id, as
in `prev.map(f => f.id === id ? g(f) : f)`. -/
def setItem (files : List FileItem) (id : Nat) (g : FileItem → FileItem) : List FileItem :=
  files.map fun f => if f.id = id then g f else f

/-- JS `path.trim()` over the character list (the exact whitespace set is
immaterial to every claim). -/
def jsTrim (s : String) : String :=
  String.mk (((s.data.dropWhile Char.isWhitespace).reverse.dropWhile Char.isWhitespace).reverse)

/-- Mirror of `addFilePath` (lines 584-601): a blank path is ignored; a `getPathInfo`
rejection only raises a toast; otherwise a `pending` item carrying the
trimmed path and the classifier's name/kind is appended. -/
def addFilePath (env : Env) (newId : Nat) (path : String) (s : Session) : Session :=
  if jsTrim path = "" then s
  else
    match env.getPathInfo path with
    | .thrown _ => s
    | .ok info =>
      { s with files := s.files ++
          [⟨newId, jsTrim path, info.file_name, info.is_directory, .pending, none, none⟩] }

/-- Mirror of `removeFile` (lines 615-617): drop the item with the given id. -/
def removeFile (id : Nat) (s : Session) : Session :=
  { s with files := s.files.filter fun f => f.id ≠ id }

/-- Mirror of `clearAll` (lines 620-624): empty the list and reset progress/cursor. -/
def clearAll (s : Session) : Session :=
  { s with files := [], progress := 0, currentIndex := 0 }

/-- Mirror of `resetStatus` (lines 627-631): every item back to `pending` with `error`
cleared (`iconData` is left untouched by the source), progress and cursor
reset. -/
def resetStatus (s : Session) : Session :=
  { s with
    files := s.files.map fun f => { f with status := .pending, error := none }
    progress := 0
    currentIndex := 0 }

/-- Mirror of `togglePause` (lines 744-746). -/
def togglePause (s : Session) : Session :=
  { s with isPaused := !s.isPaused }

/-- Mirror of `processFile` (lines 634-697) on the snapshot item `file`: flip the item
to `processing` before any I/O, then validate (kind-specific), check
existence, resolve the icon best-effort, derive the shortcut name and create
the shortcut; the `catch` records any failure message on the item.  Both
`setFiles` calls act on the live state by item id.  Returns the updated
session, the observations and the boolean outcome. -/
def processFile (env : Env) (categoryId : String) (file : FileItem) (s : Session) :
    Session × BatchLog × Bool :=
  let files₁ := setItem s.files file.id fun f => { f with status := .processing }
  let s₁ := { s with files := files₁ }
  let fail (msg : String) (attempts : List ShortcutInput) : Session × BatchLog × Bool :=
    let files₂ := setItem files₁ file.id fun f => { f with status := .error, error := some msg }
    ({ s₁ with files := files₂ }, ⟨[files₁, files₂], attempts, [], 0, 0⟩, false)
  match (if file.isDirectory then env.validateDirectoryPath file.path
         else env.validateFilePath file.path) with
  | .thrown m => fail m []
  | .ok false => fail "路径无效" []
  | .ok true =>
    match env.checkFileExists file.path with
    | .thrown m => fail m []
    | .ok false => fail "文件或目录不存在" []
    | .ok true =>
      let iconData := resolveIcon env file.isDirectory file.path
      let shortcutName := deriveShortcutName file.isDirectory file.name
      let input : ShortcutInput := ⟨shortcutName, file.path, categoryId, iconData⟩
      match env.createShortcut input with
      | .thrown m => fail m [input]
      | .ok _ =>
        let files₂ := setItem files₁ file.id fun f =>
          { f with status := .success, iconData := iconData }
        ({ s₁ with files := files₂ }, ⟨[files₁, files₂], [input], [], 0, 0⟩, true)

/-- A user click on the pause/resume button during the inter-item delay of
iteration `i`: it flips the live `isPaused` only — the running invocation's
snapshot is unaffected. -/
def interToggle (pauseAt : Option Nat) (i : Nat) (s : Session) : Session :=
  if pauseAt = some i then { s with isPaused := !s.isPaused } else s

/-- The `for (let i = currentIndex; i < files.length; i++)` loop of
`processBatch` (lines 714-730), iterating over the indexed snapshot items.
`snapPaused` is the `isPaused` the invocation's closure captured: the check
`if (isPaused) break` reads it, so it either stops the loop before any item
or never.  Each iteration writes the live cursor, processes the snapshot
item, writes the live progress, and pauses 100 time-units (during which a
pause click, `pauseAt`, may hit the live state). -/
def batchLoop (env : Env) (categoryId : String) (total : Nat) (snapPaused : Bool)
    (pauseAt : Option Nat) : List (Nat × FileItem) → Session → Session × Nat × Nat × BatchLog
  | [], s => (s, 0, 0, emptyBatchLog)
  | (i, file) :: rest, s =>
    if snapPaused then (s, 0, 0, emptyBatchLog)
    else
      let s₁ := { s with currentIndex := i }
      let (s₂, log₁, ok) := processFile env categoryId file s₁
      let s₃ := { s₂ with progress := (((i : ℚ) + 1) / (total : ℚ)) * 100 }
      let s₄ := interToggle pauseAt i s₃
      let (s₅, sc, ec, log₂) := batchLoop env categoryId total snapPaused pauseAt rest s₄
      (s₅, (if ok then sc + 1 else sc), (if ok then ec else ec + 1), appendLog log₁ log₂)

/-- One invocation of `processBatch` (lines 700-741).  The closure reads the
render-time snapshot of `files`, `currentIndex` and `isPaused` (captured
here from the live state at invocation, which is when the callback was
created); `setIsProcessing` / `setIsPaused` / `setCurrentIndex` /
`setProgress` write the live state.  After the loop the completion branch
compares the *snapshot* `currentIndex` — not the live cursor — against
`files.length - 1`, and only then shows the aggregate toast and calls
`onComplete`. -/
def processBatch (env : Env) (categoryId : String) (pauseAt : Option Nat) (s : Session) :
    Session × BatchLog :=
  let snapFiles := s.files
  let snapIndex := s.currentIndex
  let snapPaused := s.isPaused
  if snapFiles.length = 0 then
    (s, { emptyBatchLog with errorToasts := 1 })
  else
    let s₁ := { s with isProcessing := true, isPaused := false }
    let (s₂, sc, ec, log) :=
      batchLoop env categoryId snapFiles.length snapPaused pauseAt
        (snapFiles.enum.drop snapIndex) s₁
    let s₃ := { s₂ with isProcessing := false }
    if snapFiles.length - 1 ≤ snapIndex then
      (s₃, { log with
             completions := log.completions ++ [(sc, ec)]
             successToasts := log.successToasts + 1 })
    else (s₃, log)

/-! ### Concrete fixtures for witnesses and counterexamples -/

/-- An environment where every collaborator call succeeds: every path is an
existing, valid file with display name `a.txt`, icons resolve, and creation
succeeds. -/
def envAllOk : Env :=
  { getPathInfo := fun _ => .ok ⟨"a.txt", false⟩
    validateFilePath := fun _ => .ok true
    validateDirectoryPath := fun _ => .ok true
    checkFileExists := fun _ => .ok true
    getFileIcon := fun _ => .ok (some ⟨some "ic"⟩)
    getDirectoryIcon := fun _ => .ok none
    createShortcut := fun _ => .ok () }

/-- Like `envAllOk`, but icon resolution rejects. -/
def envIconThrows : Env :=
  { envAllOk with
    getFileIcon := fun _ => .thrown "icon boom"
    getDirectoryIcon := fun _ => .thrown "icon boom" }

/-- An environment where every collaborator call rejects. -/
def envAllThrows : Env :=
  { getPathInfo := fun _ => .thrown "boom"
    validateFilePath := fun _ => .thrown "boom"
    validateDirectoryPath := fun _ => .thrown "boom"
    checkFileExists := fun _ => .thrown "boom"
    getFileIcon := fun _ => .thrown "boom"
    getDirectoryIcon := fun _ => .thrown "boom"
    createShortcut := fun _ => .thrown "boom" }

/-- Like `envAllOk`, but `getPathInfo` classifies every path as the
directory `docs`; its `getDirectoryIcon` (inherited from `envAllOk`)
resolves with the empty result `null`. -/
def envDirEmptyIcon : Env :=
  { envAllOk with getPathInfo := fun _ => .ok ⟨"docs", true⟩ }

/-- A pending one-file item. -/
def itemA : FileItem := ⟨1, "/a", "a.txt", false, .pending, none, none⟩

/-- A pending directory item. -/
def itemD : FileItem := ⟨3, "/d", "docs", true, .pending, none, none⟩

/-- A second pending item. -/
def itemB : FileItem := ⟨2, "/b", "b.txt", false, .pending, none, none⟩

/-- The initial (empty) manual-controller state. -/
def sessionEmpty : Session := ⟨[], false, false, 0, 0⟩

/-- A fresh one-item manual session — the state `addFilePath` of `/a`
produces from `sessionEmpty`. -/
def sessionOne : Session := ⟨[itemA], false, false, 0, 0⟩

/-- A fresh two-item manual session. -/
def sessionTwo : Session := ⟨[itemA, itemB], false, false, 0, 0⟩

/-- A finished session: one `success` item carrying an icon payload, one
`error` item. -/
def sessionDone : Session :=
  ⟨[⟨1, "/a", "a.txt", false, .success, none, some "ic"⟩,
    ⟨2, "/b", "b.txt", false, .error, some "oops", none⟩], false, false, 50, 1⟩

/-! ## Helper lemmas -/

/-- A dot-free character list has no last-dot split. -/
theorem lastDotSplit_eq_none {cs : List Char} (h : '.' ∉ cs) : lastDotSplit cs = none := by
  induction cs with
  | nil => rfl
  | cons c cs ih =>
    simp only [List.mem_cons, not_or] at h
    have hc : ¬ c = '.' := fun hc => h.1 hc.symm
    simp [lastDotSplit, ih h.2, hc]

/-- The last-dot split of `b ++ '.' :: a` with `a` dot-free is `(b, a)`. -/
theorem lastDotSplit_append {a : List Char} (b : List Char) (h : '.' ∉ a) :
    lastDotSplit (b ++ '.' :: a) = some (b, a) := by
  induction b with
  | nil => simp [lastDotSplit, lastDotSplit_eq_none h]
  | cons c b ih => simp [lastDotSplit, ih]

/-- Character-list `contains` agrees with membership (positive direction). -/
theorem charList_contains_true {c : Char} {l : List Char} (h : c ∈ l) : l.contains c = true := by
  simpa using h

/-- Character-list `contains` agrees with membership (negative direction). -/
theorem charList_contains_false {c : Char} {l : List Char} (h : c ∉ l) : l.contains c = false := by
  simpa using h

/-- The per-path loop of the automatic batch: paths are visited in arrival
order, the success counter counts exactly the successful outcomes, the error
counter the failed ones, and together they exhaust the list. -/
theorem dropLoop_spec (env : Env) (cid : String) (paths : List String) :
    ((dropLoop env cid paths).processed.map Prod.fst = paths) ∧
    ((dropLoop env cid paths).successCount
      = (dropLoop env cid paths).processed.countP (fun q => q.2)) ∧
    ((dropLoop env cid paths).errorCount
      = (dropLoop env cid paths).processed.countP (fun q => !q.2)) ∧
    ((dropLoop env cid paths).successCount + (dropLoop env cid paths).errorCount
      = paths.length) := by
  induction paths with
  | nil => simp [dropLoop, emptyDropLog]
  | cons p rest ih =>
    obtain ⟨h1, h2, h3, h4⟩ := ih
    by_cases hok : (perItemAuto env cid p).ok
    · simp [dropLoop, hok, h1, List.countP_cons, h2, h3]
      omega
    · simp [dropLoop, hok, h1, List.countP_cons, h2, h3]
      omega

/-! ## Claim C1 -/

/-- Claim C1: a non-empty dropped path list that passes the concurrency
guard is processed strictly in arrival (array) order; each path contributes
to exactly one of the two counters — the success counter counts exactly the
successful paths, the error counter the rest — so when the aggregate
notification is computed, `successCount + errorCount` equals the length of
the list. -/
theorem c1_theorem (env : Env) (cid : String) (st : DropState) (paths : List String)
    (hb : st.busy = false) (hne : paths ≠ []) :
    ((handleFileDrop env cid st paths).2.processed.map Prod.fst = paths) ∧
    ((handleFileDrop env cid st paths).2.successCount
      = (handleFileDrop env cid st paths).2.processed.countP (fun q => q.2)) ∧
    ((handleFileDrop env cid st paths).2.errorCount
      = (handleFileDrop env cid st paths).2.processed.countP (fun q => !q.2)) ∧
    ((handleFileDrop env cid st paths).2.successCount
      + (handleFileDrop env cid st paths).2.errorCount = paths.length) := by
  have hlen : ¬ paths.length = 0 := fun h => hne (List.length_eq_zero.mp h)
  obtain ⟨h1, h2, h3, h4⟩ := dropLoop_spec env cid paths
  simp only [handleFileDrop, hb, if_neg hlen]
  simp
  exact ⟨h1, h2, h3, h4⟩

/-- Witness for C1: a two-path drop (one good path, one falsy path) on an
idle handler. -/
theorem c1_witness :
    ((⟨false, false, false⟩ : DropState).busy = false) ∧
    ((["/a", ""] : List String) ≠ []) ∧
    (((handleFileDrop envAllOk "cat" ⟨false, false, false⟩ ["/a", ""]).2.processed.map
        Prod.fst = ["/a", ""]) ∧
     ((handleFileDrop envAllOk "cat" ⟨false, false, false⟩ ["/a", ""]).2.successCount
       = (handleFileDrop envAllOk "cat" ⟨false, false, false⟩ ["/a", ""]).2.processed.countP
           (fun q => q.2)) ∧
     ((handleFileDrop envAllOk "cat" ⟨false, false, false⟩ ["/a", ""]).2.errorCount
       = (handleFileDrop envAllOk "cat" ⟨false, false, false⟩ ["/a", ""]).2.processed.countP
           (fun q => !q.2)) ∧
     ((handleFileDrop envAllOk "cat" ⟨false, false, false⟩ ["/a", ""]).2.successCount
       + (handleFileDrop envAllOk "cat" ⟨false, false, false⟩ ["/a", ""]).2.errorCount
       = (["/a", ""] : List String).length)) :=
  ⟨rfl, by decide, c1_theorem envAllOk "cat" ⟨false, false, false⟩ ["/a", ""] rfl (by decide)⟩

/-! ## Claim C2 -/

/-- Claim C2 (refuted; code bug): a fresh two-item batch started by
`processBatch` runs to the end of the list — both items reach `success`,
`isProcessing` is cleared — yet `onComplete` is never invoked and the
completion toast never shows, because the completion branch compares the
stale snapshot `currentIndex` (0, captured when the callback was created)
rather than the live post-run cursor against `files.length - 1` (1). -/
theorem c2_theorem :
    ((processBatch envAllOk "cat" none sessionTwo).1.files.map FileItem.status
      = [.success, .success]) ∧
    ((processBatch envAllOk "cat" none sessionTwo).1.isProcessing = false) ∧
    ((processBatch envAllOk "cat" none sessionTwo).2.completions = []) ∧
    ((processBatch envAllOk "cat" none sessionTwo).2.successToasts = 0) := by
  decide

/-! ## Claim C3 -/

/-- Claim C3: two drop dispatches with argument lists `P₁` then `P₂`, the
second arriving strictly within the 300-unit quiescence window of the first,
make the underlying batch handler execute exactly once, on `P₂` — the first
dispatch's timer is cleared, not queued. -/
theorem c3_theorem (t₁ t₂ : Nat) (P₁ P₂ : List String) (h₁ : t₁ ≤ t₂)
    (h₂ : t₂ < t₁ + 300) :
    debounceRuns 300 [(t₁, P₁), (t₂, P₂)] = [P₂] := by
  simp [debounceRuns, h₂]

/-- Witness for C3: dispatches at times 0 and 120. -/
theorem c3_witness :
    ((0 : Nat) ≤ 120) ∧ ((120 : Nat) < 0 + 300) ∧
    (debounceRuns 300 [(0, ["/p1"]), (120, ["/p2"])] = [["/p2"]]) :=
  ⟨by decide, by decide, c3_theorem 0 120 ["/p1"] ["/p2"] (by decide) (by decide)⟩

/-! ## Claim C4 -/

/-- Claim C4: a debounced dispatch that begins executing while the busy flag
is set returns immediately: the final state equals the entry state (no
`isDragOver`, `isProcessing`, busy-flag or counter mutation) and the log is
empty (no path processed, no shortcut attempted, no toast shown). -/
theorem c4_theorem (env : Env) (cid : String) (st : DropState) (paths : List String)
    (hb : st.busy = true) :
    handleFileDrop env cid st paths = (st, emptyDropLog) := by
  simp [handleFileDrop, hb]

/-- Witness for C4: a second drop arriving while a batch is in flight. -/
theorem c4_witness :
    ((⟨true, true, true⟩ : DropState).busy = true) ∧
    (handleFileDrop envAllOk "cat" ⟨true, true, true⟩ ["/a"]
      = (⟨true, true, true⟩, emptyDropLog)) :=
  ⟨rfl, c4_theorem envAllOk "cat" ⟨true, true, true⟩ ["/a"] rfl⟩

/-! ## Claim C5 -/

/-- Claim C5 (refuted; code bug): starting a one-item queue twice — the
second press after the first run completed, with no `resetStatus` in between
— drives the already-`success` item back to `processing` (the second run's
first `setFiles` publishes `[processing]`) and passes its payload to
`createShortcut` a second time.  The sequence is reachable: `addFilePath`
on the empty controller yields exactly the starting session. -/
theorem c5_theorem :
    ((addFilePath envAllOk 1 "/a" sessionEmpty).files = sessionOne.files) ∧
    ((processBatch envAllOk "cat" none sessionOne).1.files.map FileItem.status
      = [.success]) ∧
    (((processBatch envAllOk "cat" none
        (processBatch envAllOk "cat" none sessionOne).1).2.filesTrace.head?.map
          (List.map FileItem.status)) = some [.processing]) ∧
    ((processBatch envAllOk "cat" none
        (processBatch envAllOk "cat" none sessionOne).1).2.attempts.map
          ShortcutInput.file_path = ["/a"]) := by
  decide

/-! ## Claim C6 -/

/-- Claim C6 (refuted; code bug): on a fresh two-item queue, a pause click
landing right after item 0 completes does not halt the run — the loop's
`if (isPaused) break` reads the stale snapshot captured at invocation — so
item 1 is processed in the same run (never left `pending`); the subsequent
start (the resume) then processes nothing at all — its snapshot `isPaused`
is still `true` — attempts no shortcut, and reports completion `(0, 0)`. -/
theorem c6_theorem :
    ((processBatch envAllOk "cat" (some 0) sessionTwo).1.files.map FileItem.status
      = [.success, .success]) ∧
    ((processBatch envAllOk "cat" (some 0) sessionTwo).1.isPaused = true) ∧
    ((processBatch envAllOk "cat" none
        (processBatch envAllOk "cat" (some 0) sessionTwo).1).2.attempts = []) ∧
    ((processBatch envAllOk "cat" none
        (processBatch envAllOk "cat" (some 0) sessionTwo).1).2.completions = [(0, 0)]) := by
  decide

/-! ## Claim C7 -/

/-- Claim C7 is false as stated: `resetStatus` does not clear `iconData`.
On a session whose first item carries an icon payload, the payload survives
the reset unchanged. -/
theorem c7_counterexample :
    ((resetStatus sessionDone).files.map FileItem.iconData = [some "ic", none]) ∧
    (some "ic" ≠ (none : Option String)) := by
  decide

/-- Claim C7 (amended): after `resetStatus`, every item's status is
`pending` with `errorDetail` cleared, and `currentIndex` (and the progress
percentage) are reset to 0; `iconData`, however, is retained unchanged
rather than cleared. -/
theorem c7_theorem (s : Session) :
    ((resetStatus s).currentIndex = 0) ∧
    ((resetStatus s).progress = 0) ∧
    (∀ f ∈ (resetStatus s).files, f.status = .pending ∧ f.error = none) ∧
    ((resetStatus s).files.map FileItem.iconData = s.files.map FileItem.iconData) := by
  refine ⟨rfl, rfl, ?_, ?_⟩
  · intro f hf
    simp only [resetStatus, List.mem_map] at hf
    obtain ⟨g, _, rfl⟩ := hf
    exact ⟨rfl, rfl⟩
  · simp [resetStatus, List.map_map]

/-- Witness for C7 at the finished session. -/
theorem c7_witness :
    ((resetStatus sessionDone).currentIndex = 0) ∧
    (∀ f ∈ (resetStatus sessionDone).files, f.status = .pending ∧ f.error = none) ∧
    ((resetStatus sessionDone).files.map FileItem.iconData
      = sessionDone.files.map FileItem.iconData) :=
  ⟨(c7_theorem sessionDone).1, (c7_theorem sessionDone).2.2.1,
    (c7_theorem sessionDone).2.2.2⟩

/-! ## Claim C8 -/

/-- Claim C8: for an item of either kind (file or directory) whose
validation, existence check and shortcut creation all succeed, icon
resolution that rejects — or that resolves with an empty result, be it a
`null` payload or a payload with no `icon_data` — does not abort or fail the
item's processing: the item still reaches `success` and `iconData` is left
unset, in the manual path's `processFile` (the boolean outcome is `true` and
the item's terminal record has no icon) and in the automatic path's per-item
step alike (the path counts a success and the payload passed to
`createShortcut` carries no icon). -/
theorem c8_theorem (env : Env) (cid : String) (file : FileItem) (s : Session) (m : String)
    (hpath : ¬ file.path = "")
    (hinfo : env.getPathInfo file.path = .ok ⟨file.name, file.isDirectory⟩)
    (hval : (if file.isDirectory then env.validateDirectoryPath file.path
             else env.validateFilePath file.path) = .ok true)
    (hex : env.checkFileExists file.path = .ok true)
    (hicon : (if file.isDirectory then env.getDirectoryIcon file.path
              else env.getFileIcon file.path) = .thrown m ∨
             (if file.isDirectory then env.getDirectoryIcon file.path
              else env.getFileIcon file.path) = .ok none ∨
             (if file.isDirectory then env.getDirectoryIcon file.path
              else env.getFileIcon file.path) = .ok (some ⟨none⟩))
    (hcreate : env.createShortcut
        ⟨deriveShortcutName file.isDirectory file.name, file.path, cid, none⟩ = .ok ()) :
    ((processFile env cid file s).2.2 = true) ∧
    (∀ f ∈ (processFile env cid file s).1.files, f.id = file.id →
        f.status = .success ∧ f.iconData = none) ∧
    ((perItemAuto env cid file.path).ok = true) ∧
    ((perItemAuto env cid file.path).attempt
      = some ⟨deriveShortcutName file.isDirectory file.name, file.path, cid, none⟩) := by
  have hres : resolveIcon env file.isDirectory file.path = none := by
    rcases hicon with h | h | h <;> simp [resolveIcon, h]
  refine ⟨?_, ?_, ?_, ?_⟩
  · simp [processFile, hval, hex, hres, hcreate]
  · intro f hf hid
    simp only [processFile, hval, hex, hres, hcreate] at hf
    simp only [setItem, List.mem_map] at hf
    obtain ⟨f₁, hf₁, rfl⟩ := hf
    by_cases h1 : f₁.id = file.id
    · simp [h1]
    · simp only [h1, if_false] at hid ⊢
  · simp [perItemAuto, hpath, hinfo, hval, hex, hres, hcreate]
  · simp [perItemAuto, hpath, hinfo, hval, hex, hres, hcreate]

/-- Witness for C8, covering both previously distinct shapes: the directory
item `/d` whose icon collaborator resolves with the empty result `null`, and
the file item `/a` whose icon collaborator rejects — each still reaching
`success` with no icon while everything else succeeds. -/
theorem c8_witness :
    (itemD.isDirectory = true) ∧
    (envDirEmptyIcon.getDirectoryIcon itemD.path = .ok none) ∧
    ((processFile envDirEmptyIcon "cat" itemD sessionOne).2.2 = true) ∧
    (∀ f ∈ (processFile envDirEmptyIcon "cat" itemD sessionOne).1.files,
        f.id = itemD.id → f.status = .success ∧ f.iconData = none) ∧
    ((perItemAuto envDirEmptyIcon "cat" itemD.path).attempt
      = some ⟨deriveShortcutName itemD.isDirectory itemD.name, itemD.path, "cat", none⟩) ∧
    (itemA.isDirectory = false) ∧
    (envIconThrows.getFileIcon itemA.path = .thrown "icon boom") ∧
    ((processFile envIconThrows "cat" itemA sessionOne).2.2 = true) ∧
    ((perItemAuto envIconThrows "cat" itemA.path).ok = true) :=
  ⟨rfl, rfl,
    (c8_theorem envDirEmptyIcon "cat" itemD sessionOne "" (by decide) rfl rfl rfl
      (Or.inr (Or.inl rfl)) rfl).1,
    (c8_theorem envDirEmptyIcon "cat" itemD sessionOne "" (by decide) rfl rfl rfl
      (Or.inr (Or.inl rfl)) rfl).2.1,
    (c8_theorem envDirEmptyIcon "cat" itemD sessionOne "" (by decide) rfl rfl rfl
      (Or.inr (Or.inl rfl)) rfl).2.2.2,
    rfl, rfl,
    (c8_theorem envIconThrows "cat" itemA sessionOne "icon boom" (by decide) rfl rfl rfl
      (Or.inl rfl) rfl).1,
    (c8_theorem envIconThrows "cat" itemA sessionOne "icon boom" (by decide) rfl rfl rfl
      (Or.inl rfl) rfl).2.2.1⟩

/-! ## Claim C9 -/

/-- Claim C9 is false as stated: the file display name `a.` contains a dot,
and the claim's formula — remove the last dot and all text after it —
yields `a`, but the code's regex `\.[^/.]+$` does not match a trailing dot
and leaves the name unchanged. -/
theorem c9_counterexample :
    (deriveShortcutName false "a." = "a.") ∧
    (specShortcutName false "a." = "a") ∧
    (("a." : String) ≠ "a") := by
  decide

/-- Claim C9 (amended): directories keep the display name, as do dot-free
file names; a file name whose final extension segment — the text after the
last dot — is non-empty and free of `/` is truncated at that last dot; but a
file name whose last dot is followed by nothing (or by text containing `/`)
is passed unmodified, because the replacement regex `\.[^/.]+$` has no
match there. -/
theorem c9_theorem :
    (∀ name : String, deriveShortcutName true name = name) ∧
    (∀ cs : List Char, '.' ∉ cs →
        deriveShortcutName false (String.mk cs) = String.mk cs) ∧
    (∀ b a : List Char, '.' ∉ a → a ≠ [] → '/' ∉ a →
        deriveShortcutName false (String.mk (b ++ '.' :: a)) = String.mk b) ∧
    (∀ b a : List Char, '.' ∉ a → (a = [] ∨ '/' ∈ a) →
        deriveShortcutName false (String.mk (b ++ '.' :: a))
          = String.mk (b ++ '.' :: a)) := by
  have hmem : ∀ (b a : List Char), '.' ∈ b ++ '.' :: a := by
    intro b a
    simp
  refine ⟨?_, ?_, ?_, ?_⟩
  · intro name
    simp [deriveShortcutName]
  · intro cs h
    simp [deriveShortcutName, charList_contains_false h]
    exact fun hc => absurd hc h
  · intro b a ha hne hslash
    simp only [deriveShortcutName, charList_contains_true (hmem b a), Bool.not_false,
      Bool.true_and, if_pos]
    simp only [stripLastExt, lastDotSplit_append b ha]
    simp [List.isEmpty_iff, hne, charList_contains_false hslash]
    exact fun hs => absurd hs hslash
  · intro b a ha hcase
    simp only [deriveShortcutName, charList_contains_true (hmem b a), Bool.not_false,
      Bool.true_and, if_pos]
    simp only [stripLastExt, lastDotSplit_append b ha]
    rcases hcase with rfl | hs
    · simp
    · simp [charList_contains_true hs]
      exact fun _ hns => absurd hs hns

/-- Witness for C9: the file name `a.txt` is truncated to `a`. -/
theorem c9_witness :
    (('.' : Char) ∉ (['t', 'x', 't'] : List Char)) ∧
    ((['t', 'x', 't'] : List Char) ≠ []) ∧
    (('/' : Char) ∉ (['t', 'x', 't'] : List Char)) ∧
    (deriveShortcutName false (String.mk (['a'] ++ '.' :: ['t', 'x', 't']))
      = String.mk ['a']) :=
  ⟨by decide, by decide, by decide,
    c9_theorem.2.2.1 ['a'] ['t', 'x', 't'] (by decide) (by decide) (by decide)⟩

/-! ## Claim C10 -/

/-- Claim C10: every execution of the debounced handler that passes the
concurrency guard — whatever the dropped list and however the collaborator
calls resolve or reject — ends with the busy flag and `isProcessing` back at
`false` (the `finally` block), so a completed or failed batch never blocks
subsequent dispatches. -/
theorem c10_theorem (env : Env) (cid : String) (st : DropState) (paths : List String)
    (hb : st.busy = false) :
    ((handleFileDrop env cid st paths).1.busy = false) ∧
    ((handleFileDrop env cid st paths).1.isProcessing = false) := by
  by_cases h : paths.length = 0 <;> simp [handleFileDrop, hb, h]

/-- Witness for C10: every collaborator call rejects, yet the flags are
restored. -/
theorem c10_witness :
    ((⟨true, false, false⟩ : DropState).busy = false) ∧
    ((handleFileDrop envAllThrows "cat" ⟨true, false, false⟩ ["/x"]).1.busy = false) ∧
    ((handleFileDrop envAllThrows "cat" ⟨true, false, false⟩ ["/x"]).1.isProcessing
      = false) :=
  ⟨rfl, (c10_theorem envAllThrows "cat" ⟨true, false, false⟩ ["/x"] rfl).1,
    (c10_theorem envAllThrows "cat" ⟨true, false, false⟩ ["/x"] rfl).2⟩

end IQ
